import Mathlib

set_option maxHeartbeats 1000000

deriving instance DecidableEq for Except

/-!
Shallow embedding of the mezon-mcp server (src/index.ts): the identifier
resolution subsystem (`findClan`, `findChannel`), the zod argument schemas,
the two tool handlers, and the startup sequence, together with theorems
checking the specification's claims about them.

External collaborators (the mezon-sdk directory client, the MCP transport,
the Node runtime) are modelled as explicit parameters or outcome values;
everything the repository's own code does is translated directly from the
TypeScript source.
-/

namespace Mezon

/-- A message as delivered by the directory client, carrying the fields the
read-messages handler projects: `msg.author.tag`, `msg.content`,
`msg.createdAt.toISOString()`. -/
structure Msg where
  authorTag : String
  content : String
  createdAtISO : String
deriving DecidableEq

/-- A channel handle: `channel.id`, `channel.name`, the owning guild's data
(`channel.guild.id`, `channel.guild.name`), the `instanceof TextChannel`
capability flag, and the channel's message store in the directory's native
delivery order (most recent first). -/
structure Channel where
  id : String
  name : String
  guildId : String
  guildName : String
  isText : Bool
  messages : List Msg
deriving DecidableEq

/-- A clan (server) handle: `clan.id`, `clan.name`. -/
structure Clan where
  id : String
  name : String
deriving DecidableEq

/-- Snapshot of the Mezon client's directory: `client.clans` (in iteration
order, so `clans.first()` is the head) and the channel cache backing
`guild.channels.cache`. Each channel records its owning guild, so
`guild.channels.cache` is the cache filtered to that guild. -/
structure ClientState where
  clans : List Clan
  channels : List Channel
deriving DecidableEq

/-- Outcome of an external `fetch(...)` call on the directory client: the
promise resolves with a (truthy) value, resolves with a nullish value, or
rejects. -/
inductive Fetch (α : Type) where
  | found (a : α)
  | nullish
  | threw
deriving DecidableEq

/-- Structured form of every `Error` the resolvers and handlers throw,
carrying exactly the data the source interpolates into the message string:

* `multiServerNoDefault` — line 27, carries all known clan names;
* `clanNotFoundListing` — line 43, carries the identifier and all known
  clan names;
* `clanAmbiguous` — line 47, carries the identifier and each colliding
  match as a (name, ID) pair;
* `clanNotFound` — line 51 (ID fetch resolved nullish), carries only the
  identifier;
* `channelNotFound` — line 77, carries the identifier, the resolved
  guild's name and all text-channel names of that guild;
* `channelAmbiguous` — line 81, carries the identifier, the guild name
  and each match as a (name, ID) pair;
* `channelWrongType` — line 85;
* `invalidArguments` — the zod validation failure (lines 211-216),
  carrying the offending field paths;
* `unknownTool` — line 208. -/
inductive ResErr where
  | multiServerNoDefault (availableNames : List String)
  | clanNotFoundListing (ident : String) (availableNames : List String)
  | clanAmbiguous (ident : String) (cands : List (String × String))
  | clanNotFound (ident : String)
  | channelNotFound (ident : String) (guildName : String) (availableNames : List String)
  | channelAmbiguous (ident : String) (guildName : String) (cands : List (String × String))
  | channelWrongType (ident : String) (guildName : String)
  | invalidArguments (fields : List String)
  | unknownTool (toolName : String)
deriving DecidableEq

/-- ASCII model of JavaScript `String.prototype.toLowerCase` on a single
character: uppercase A-Z maps to a-z, everything else is unchanged. -/
def lowerChar (c : Char) : Char :=
  if 'A' ≤ c ∧ c ≤ 'Z' then Char.ofNat (c.toNat + 32) else c

/-- `s.toLowerCase()` on the ASCII model. -/
def lowerStr (s : String) : String :=
  ⟨s.data.map lowerChar⟩

/-- Remove the first occurrence of `c` from a character list, the way
JavaScript `String.prototype.replace` with a plain string pattern removes
only the first occurrence. -/
def stripFirst (c : Char) : List Char → List Char
  | [] => []
  | x :: xs => if x = c then xs else x :: stripFirst c xs

/-- `s.replace('#', '')`: removes the first `'#'` occurring anywhere in
`s` (not only a leading one), or leaves `s` unchanged if it has none. -/
def replaceFirstHash (s : String) : String :=
  ⟨stripFirst '#' s.data⟩

/-- The `if (!guildIdentifier)` branch of `findClan` (lines 19-28): with
exactly one clan return it (`client.clans.first()!`), otherwise throw the
multiple-servers error listing every known clan name. -/
def findClanNoIdent (st : ClientState) : Except ResErr Clan :=
  match st.clans with
  | [g] => .ok g
  | _ => .error (.multiServerNoDefault (st.clans.map (fun g => g.name)))

/-- The case-insensitive exact-name candidate list of the fallback search
(lines 36-38): `client.clans.filter(g => g.name.toLowerCase() ===
guildIdentifier.toLowerCase())`. -/
def clanNameMatches (st : ClientState) (gid : String) : List Clan :=
  st.clans.filter (fun g => lowerStr g.name == lowerStr gid)

/-- The identifier-present branch of `findClan` (lines 30-51): try the ID
fetch; a truthy result is returned at once; a rejection falls back to the
name search (zero matches → not-found listing all names, one match →
return it, several → ambiguous listing name/ID pairs); a nullish result
reaches the final `throw` on line 51. -/
def findClanByIdent (st : ClientState) (fetchClan : String → Fetch Clan)
    (gid : String) : Except ResErr Clan :=
  match fetchClan gid with
  | .found g => .ok g
  | .nullish => .error (.clanNotFound gid)
  | .threw =>
    match clanNameMatches st gid with
    | [] => .error (.clanNotFoundListing gid (st.clans.map (fun g => g.name)))
    | [g] => .ok g
    | g1 :: g2 :: gs =>
      .error (.clanAmbiguous gid ((g1 :: g2 :: gs).map (fun g => (g.name, g.id))))

/-- `findClan` (lines 18-52). `client.clans.fetch` is the external
directory call, passed in as `fetchClan`. A JavaScript falsy check guards
the no-identifier branch, so the empty string behaves like `undefined`. -/
def findClan (st : ClientState) (fetchClan : String → Fetch Clan) :
    Option String → Except ResErr Clan
  | none => findClanNoIdent st
  | some gid => if gid = "" then findClanNoIdent st else findClanByIdent st fetchClan gid

/-- Directory-faithful behaviour of `client.clans.fetch`: resolve the clan
carrying the requested ID, reject when there is none. -/
def stdFetchClan (st : ClientState) (gid : String) : Fetch Clan :=
  match st.clans.find? (fun g => g.id == gid) with
  | some g => .found g
  | none => .threw

/-- The name comparison of `findChannel`'s fallback search (lines 69-70):
the channel name equals the identifier case-insensitively, or equals the
identifier with its first `'#'` removed. -/
def channelNameMatches (chName ident : String) : Bool :=
  lowerStr chName == lowerStr ident ||
    lowerStr chName == replaceFirstHash (lowerStr ident)

/-- `guild.channels.cache`: the directory's channels owned by `g`. -/
def guildCache (st : ClientState) (g : Clan) : List Channel :=
  st.channels.filter (fun c => c.guildId == g.id)

/-- The filtered collection of lines 66-71: text channels of the resolved
guild whose name matches the identifier. -/
def channelMatches (st : ClientState) (g : Clan) (ident : String) : List Channel :=
  (guildCache st g).filter (fun c => c.isText && channelNameMatches c.name ident)

/-- `findChannel` (lines 55-86). The guild is fixed first via `findClan`;
then the channel ID fetch is tried: a truthy result that is a text channel
of the resolved guild is returned, while a truthy result failing that test
or a nullish result reaches the final `throw` on line 85 (the wrong-type
error) — only a rejected fetch enters the `catch` block and runs the name
search (zero matches → not-found listing the guild's text-channel names,
one → return it, several → ambiguous listing name/ID pairs). -/
def findChannel (st : ClientState) (fetchClan : String → Fetch Clan)
    (fetchChannel : String → Fetch Channel) (channelIdentifier : String)
    (guildIdentifier : Option String) : Except ResErr Channel :=
  match findClan st fetchClan guildIdentifier with
  | .error e => .error e
  | .ok guild =>
    match fetchChannel channelIdentifier with
    | .found ch =>
      if ch.isText && ch.guildId == guild.id then .ok ch
      else .error (.channelWrongType channelIdentifier guild.name)
    | .nullish => .error (.channelWrongType channelIdentifier guild.name)
    | .threw =>
      match channelMatches st guild channelIdentifier with
      | [] =>
        .error (.channelNotFound channelIdentifier guild.name
          (((guildCache st guild).filter (fun c => c.isText)).map (fun c => c.name)))
      | [c] => .ok c
      | c1 :: c2 :: cs =>
        .error (.channelAmbiguous channelIdentifier guild.name
          ((c1 :: c2 :: cs).map (fun c => (c.name, c.id))))

/-- The raw, untyped `arguments` object of a tool-call request, restricted
to the typed fields the two zod schemas can accept. A JSON number is
modelled as a rational: zod's `z.number()` does not require integers. -/
structure RawArgs where
  server : Option String
  channel : Option String
  message : Option String
  limit : Option Rat
deriving DecidableEq

/-- `SendMessageSchema.parse` (lines 89-93): `server` optional, `channel`
and `message` required strings. -/
def parseSendArgs (a : RawArgs) : Except ResErr (Option String × String × String) :=
  match a.channel, a.message with
  | some ch, some m => .ok (a.server, ch, m)
  | none, _ => .error (.invalidArguments ["channel"])
  | some _, none => .error (.invalidArguments ["message"])

/-- `ReadMessagesSchema.parse` (lines 95-99): `server` optional, `channel`
a required string, `limit` a number with `.min(1).max(100).default(50)` —
inclusive bounds, no integrality requirement. -/
def parseReadArgs (a : RawArgs) : Except ResErr (Option String × String × Rat) :=
  match a.channel with
  | none => .error (.invalidArguments ["channel"])
  | some ch =>
    match a.limit with
    | none => .ok (a.server, ch, 50)
    | some l =>
      if 1 ≤ l ∧ l ≤ 100 then .ok (a.server, ch, l)
      else .error (.invalidArguments ["limit"])

/-- Modelled from the spec: the directory client's
`channel.messages.fetch` surface taking the limit option (line 190), which
the spec describes as "fetch N most recent messages from a channel" — it
delivers up to `limit` messages from the channel's store in the
directory's native recency order. The repository contains no code for this
call; the handler only forwards `limit` and consumes the result. -/
def fetchMessages (ch : Channel) (limit : Rat) : List Msg :=
  ch.messages.take (⌊limit⌋).toNat

/-- One element of the `formattedMessages` array (lines 191-197): the
projection of a fetched message to exactly the five reported fields. -/
structure MsgView where
  channel : String
  server : String
  author : String
  content : String
  timestamp : String
deriving DecidableEq

/-- The projection of lines 192-196: `channel` is the resolved channel's
name prefixed with `'#'`, `server` is `channel.guild.name`, and the
author/content/timestamp fields are copied from the message. -/
def projectMsg (ch : Channel) (m : Msg) : MsgView :=
  { channel := "#" ++ ch.name
    server := ch.guildName
    author := m.authorTag
    content := m.content
    timestamp := m.createdAtISO }

/-- The value a handler returns on success: for send-message the data of
the confirmation string of line 181 (the platform-assigned message ID is
produced by the external `channel.send` and is not modelled); for
read-messages the projected message array of lines 191-197. -/
inductive ToolResult where
  | sent (channelName guildName message : String)
  | readResult (views : List MsgView)
deriving DecidableEq

/-- The send-message arm of the `CallToolRequestSchema` handler (lines
173-184). Note: line 175 calls `findChannel(channelIdentifier)` without a
second argument, so the parsed `server` field is dropped and `findChannel`
always receives `undefined` as the guild identifier. -/
def handleSendMessage (st : ClientState) (fetchClan : String → Fetch Clan)
    (fetchChannel : String → Fetch Channel) (a : RawArgs) : Except ResErr ToolResult :=
  match parseSendArgs a with
  | .error e => .error e
  | .ok (_server, chId, msg) =>
    match findChannel st fetchClan fetchChannel chId none with
    | .error e => .error e
    | .ok ch => .ok (.sent ch.name ch.guildName msg)

/-- The read-messages arm of the handler (lines 186-205). As on line 175,
line 188 drops the parsed `server` field, passing `undefined` to
`findChannel`. On success the handler maps the fetched message list
through the projection, in delivery order, with no re-sorting. -/
def handleReadMessages (st : ClientState) (fetchClan : String → Fetch Clan)
    (fetchChannel : String → Fetch Channel) (a : RawArgs) : Except ResErr ToolResult :=
  match parseReadArgs a with
  | .error e => .error e
  | .ok (_server, chId, lim) =>
    match findChannel st fetchClan fetchChannel chId none with
    | .error e => .error e
    | .ok ch => .ok (.readResult ((fetchMessages ch lim).map (projectMsg ch)))

/-- The `CallToolRequestSchema` dispatcher (lines 168-220): route on the
tool name, or throw the unknown-tool error of line 208. Every thrown
error, the rethrown zod validation error included, becomes the error value
of this one invocation. -/
def handleToolCall (st : ClientState) (fetchClan : String → Fetch Clan)
    (fetchChannel : String → Fetch Channel) (toolName : String) (a : RawArgs) :
    Except ResErr ToolResult :=
  if toolName = "send-message" then handleSendMessage st fetchClan fetchChannel a
  else if toolName = "read-messages" then handleReadMessages st fetchClan fetchChannel a
  else .error (.unknownTool toolName)

/-- The state the process ends up in after `main()` (lines 228-249) has
run: still serving requests, or terminated with an exit code; `logged`
records whether the error was written to stderr first. -/
inductive StartupOutcome where
  | running (loggedReady : Bool)
  | fatal (exitCode : Nat) (logged : Bool)
deriving DecidableEq

/-- Model of `main()` (lines 228-249). A missing `MEZON_TOKEN` throws
before the `try` block, so the rejection escapes `main()`; that path is
modelled from the spec, which calls it a fatal startup error: the runtime
logs the unhandled rejection and terminates with a non-zero exit status.
A failed login or transport connect is caught on lines 243-246:
`console.error` then `process.exit(1)`. -/
def mainModel (token : Option String) (loginOk connectOk : Bool) : StartupOutcome :=
  match token with
  | none => .fatal 1 true
  | some _ =>
    if loginOk then
      if connectOk then .running true else .fatal 1 true
    else .fatal 1 true

/-- A whole-process run: startup followed by a sequence of tool
invocations. A fatal startup serves nothing; a successful startup answers
every call in-band with `handleToolCall`'s result and the process stays
running. -/
def systemRun (st : ClientState) (fetchClan : String → Fetch Clan)
    (fetchChannel : String → Fetch Channel) (token : Option String)
    (loginOk connectOk : Bool) (calls : List (String × RawArgs)) :
    StartupOutcome × List (Except ResErr ToolResult) :=
  match mainModel token loginOk connectOk with
  | .fatal c l => (.fatal c l, [])
  | .running l =>
    (.running l, calls.map (fun p => handleToolCall st fetchClan fetchChannel p.1 p.2))

/-! ## Helper lemmas -/

theorem toNat_ofNat_valid (n : Nat) (h : n.isValidChar) : (Char.ofNat n).toNat = n := by
  simp only [Char.ofNat, h, dif_pos, Char.ofNatAux]
  rfl

/-- Lowercasing never produces a `'#'` from another character. -/
theorem lowerChar_ne_hash {c : Char} (h : c ≠ '#') : lowerChar c ≠ '#' := by
  unfold lowerChar
  split
  · next hr =>
    obtain ⟨h1, h2⟩ := hr
    rw [Char.le_def, UInt32.le_def, BitVec.le_def] at h1 h2
    have h1n : 65 ≤ c.toNat := h1
    have h2n : c.toNat ≤ 90 := h2
    have hv : (c.toNat + 32).isValidChar := by
      unfold Nat.isValidChar
      omega
    intro heq
    have ht := congrArg Char.toNat heq
    rw [toNat_ofNat_valid _ hv] at ht
    have hh : Char.toNat '#' = 35 := rfl
    rw [hh] at ht
    omega
  · exact h

theorem lowerChar_hash : lowerChar '#' = '#' := by decide

theorem hash_not_mem_map_lowerChar {l : List Char} (h : '#' ∉ l) :
    '#' ∉ l.map lowerChar := by
  intro hmem
  obtain ⟨c, hc, hlc⟩ := List.mem_map.mp hmem
  exact lowerChar_ne_hash (fun hce => h (hce ▸ hc)) hlc

theorem stripFirst_of_not_mem {c : Char} {l : List Char} (h : c ∉ l) :
    stripFirst c l = l := by
  induction l with
  | nil => rfl
  | cons x xs ih =>
    have hx : x ≠ c := fun he => h (he ▸ List.mem_cons_self x xs)
    have hxs : c ∉ xs := fun hm => h (List.mem_cons_of_mem x hm)
    simp [stripFirst, hx, ih hxs]

theorem stripFirst_append_of_not_mem {c : Char} {l1 l2 : List Char} (h : c ∉ l1) :
    stripFirst c (l1 ++ c :: l2) = l1 ++ l2 := by
  induction l1 with
  | nil => simp [stripFirst]
  | cons x xs ih =>
    have hx : x ≠ c := fun he => h (he ▸ List.mem_cons_self x xs)
    have hxs : c ∉ xs := fun hm => h (List.mem_cons_of_mem x hm)
    simp [stripFirst, hx, ih hxs]

theorem data_append (s t : String) : (s ++ t).data = s.data ++ t.data := by
  cases s
  cases t
  rfl

theorem lowerStr_data (s : String) : (lowerStr s).data = s.data.map lowerChar := rfl

theorem lowerStr_append (s t : String) : lowerStr (s ++ t) = lowerStr s ++ lowerStr t := by
  apply String.ext
  simp [lowerStr_data, data_append]

/-- Lowercasing a `'#'`-free string stays `'#'`-free. -/
theorem hash_not_mem_lowerStr {s : String} (h : '#' ∉ s.data) :
    '#' ∉ (lowerStr s).data := by
  rw [lowerStr_data]
  exact hash_not_mem_map_lowerChar h

/-- `replace('#','')` is the identity on `'#'`-free strings. -/
theorem replaceFirstHash_of_not_mem {s : String} (h : '#' ∉ s.data) :
    replaceFirstHash s = s := by
  apply String.ext
  show stripFirst '#' s.data = s.data
  exact stripFirst_of_not_mem h

/-- `find?` over a list of clans with pairwise distinct IDs locates a
member by its ID. -/
theorem find?_clan_id {l : List Clan} {S : Clan} (hmem : S ∈ l)
    (hnodup : (l.map (fun g => g.id)).Nodup) :
    l.find? (fun g => g.id == S.id) = some S := by
  induction l with
  | nil => cases hmem
  | cons a t ih =>
    rw [List.map_cons, List.nodup_cons] at hnodup
    by_cases ha : a.id = S.id
    · have haS : a = S := by
        rcases List.mem_cons.mp hmem with h | h
        · exact h.symm
        · exact absurd (ha ▸ List.mem_map_of_mem (fun g => g.id) h) hnodup.1
      simp [List.find?, ha, haS]
    · have hmem' : S ∈ t := by
        rcases List.mem_cons.mp hmem with h | h
        · exact absurd (congrArg Clan.id h.symm) ha
        · exact h
      have : (a.id == S.id) = false := by simp [ha]
      simp [List.find?, this, ih hmem' hnodup.2]

/-- Any channel `findChannel` returns belongs to the guild `findClan`
resolved: the ID-fetch path checks `channel.guild.id === guild.id`
explicitly, and the name search only filters `guild.channels.cache`. -/
theorem findChannel_scoped {st : ClientState} {fetchClan : String → Fetch Clan}
    {fetchChannel : String → Fetch Channel} {chId : String} {gid? : Option String}
    {ch : Channel} (h : findChannel st fetchClan fetchChannel chId gid? = .ok ch) :
    ∃ g, findClan st fetchClan gid? = .ok g ∧ ch.guildId = g.id := by
  unfold findChannel at h
  split at h
  · cases h
  · next guild hg =>
    refine ⟨guild, hg, ?_⟩
    split at h
    · next c hf =>
      split at h
      · next hok =>
        cases h
        rw [Bool.and_eq_true] at hok
        exact eq_of_beq hok.2
      · cases h
    · cases h
    · next hf =>
      split at h
      · cases h
      · next c hm =>
        cases h
        have hc : ch ∈ channelMatches st guild chId := by
          rw [hm]
          exact List.mem_cons_self ch []
        have hc2 : ch ∈ guildCache st guild := (List.mem_filter.mp hc).1
        exact eq_of_beq (List.mem_filter.mp hc2).2
      · cases h

/-! ## Concrete directory snapshots used by witnesses and counterexamples -/

/-- A directory with a single server. -/
def oneClanSt : ClientState :=
  ⟨[⟨"s1", "Acme"⟩], [⟨"c1", "general", "s1", "Acme", true, []⟩]⟩

/-- A directory with two servers of distinct names. -/
def twoClanSt : ClientState :=
  ⟨[⟨"s1", "Acme"⟩, ⟨"s2", "Bravo"⟩],
   [⟨"c1", "general", "s1", "Acme", true, []⟩,
    ⟨"c2", "general", "s2", "Bravo", true, []⟩]⟩

/-- A directory with two servers sharing the name "Test". -/
def collideClanSt : ClientState :=
  ⟨[⟨"s1", "Test"⟩, ⟨"s2", "Test"⟩], []⟩

/-- A clan fetch that always rejects. -/
def clanFetchThrew : String → Fetch Clan := fun _ => .threw

/-- A channel fetch that always rejects. -/
def chanFetchThrew : String → Fetch Channel := fun _ => .threw

/-! ## Claim theorems -/

/-- C2: with no identifier supplied, `findClan` returns the unique server
when the directory holds exactly one, and with more than one server it
fails with the multiple-servers (MultiServerNoDefault) error carrying the
full list of known server names. -/
theorem findClan_undefined_single_or_multi (st : ClientState) (fc : String → Fetch Clan) :
    (∀ g, st.clans = [g] → findClan st fc none = .ok g) ∧
    (2 ≤ st.clans.length →
      findClan st fc none = .error (.multiServerNoDefault (st.clans.map (fun g => g.name)))) := by
  constructor
  · intro g hg
    simp [findClan, findClanNoIdent, hg]
  · intro h2
    show findClanNoIdent st = _
    unfold findClanNoIdent
    split
    · next g heq => rw [heq] at h2; simp at h2
    · rfl

/-- Witness for C2 at concrete directories: one server is returned, two
servers fail with the error listing both names. -/
theorem findClan_undefined_single_or_multi_witness :
    findClan oneClanSt clanFetchThrew none = .ok ⟨"s1", "Acme"⟩ ∧
    findClan twoClanSt clanFetchThrew none =
      .error (.multiServerNoDefault ["Acme", "Bravo"]) :=
  ⟨(findClan_undefined_single_or_multi oneClanSt clanFetchThrew).1 ⟨"s1", "Acme"⟩ rfl,
   (findClan_undefined_single_or_multi twoClanSt clanFetchThrew).2 (by decide)⟩

/-- C3: for every server S in the directory (IDs being unique and
non-empty platform identifiers), resolving by S's ID returns S no matter
how many other servers share S's name: any fetch that hits on the ID
returns immediately, with no name matching, and the directory-faithful
fetch hits for every member. -/
theorem findClan_id_hit_immediate (st : ClientState) (S : Clan) (hne : S.id ≠ "")
    (hmem : S ∈ st.clans) (hnodup : (st.clans.map (fun g => g.id)).Nodup) :
    (∀ fc : String → Fetch Clan, fc S.id = .found S → findClan st fc (some S.id) = .ok S) ∧
    findClan st (stdFetchClan st) (some S.id) = .ok S := by
  have hfc : ∀ fc : String → Fetch Clan, fc S.id = .found S →
      findClan st fc (some S.id) = .ok S := by
    intro fc hf
    simp [findClan, hne, findClanByIdent, hf]
  refine ⟨hfc, hfc _ ?_⟩
  unfold stdFetchClan
  rw [find?_clan_id hmem hnodup]

/-- Witness for C3: in a directory with two servers both named "Test",
resolving by the second ID returns the second server. -/
theorem findClan_id_hit_immediate_witness :
    findClan collideClanSt (stdFetchClan collideClanSt) (some "s2") = .ok ⟨"s2", "Test"⟩ :=
  (findClan_id_hit_immediate collideClanSt ⟨"s2", "Test"⟩ (by decide) (by decide)
    (by decide)).2

/-- C4: when the server ID fetch rejects, `findClan` falls back to the
case-insensitive exact-name match over all known servers
(`clanNameMatches`): zero matches fail not-found listing all known server
names, exactly one match returns that server, and several matches fail
ambiguous listing each match as a (name, ID) pair. -/
theorem findClan_fallback_name_search (st : ClientState) (fc : String → Fetch Clan)
    (gid : String) (hne : gid ≠ "") (hthrew : fc gid = .threw) :
    (clanNameMatches st gid = [] →
      findClan st fc (some gid) =
        .error (.clanNotFoundListing gid (st.clans.map (fun g => g.name)))) ∧
    (∀ g, clanNameMatches st gid = [g] → findClan st fc (some gid) = .ok g) ∧
    (2 ≤ (clanNameMatches st gid).length →
      findClan st fc (some gid) =
        .error (.clanAmbiguous gid ((clanNameMatches st gid).map (fun g => (g.name, g.id))))) := by
  have hred : findClan st fc (some gid) = findClanByIdent st fc gid := by
    simp [findClan, hne]
  refine ⟨?_, ?_, ?_⟩
  · intro h0
    rw [hred]
    unfold findClanByIdent
    rw [hthrew, h0]
  · intro g h1
    rw [hred]
    unfold findClanByIdent
    rw [hthrew, h1]
  · intro h2
    rw [hred]
    unfold findClanByIdent
    rw [hthrew]
    cases hm : clanNameMatches st gid with
    | nil => rw [hm] at h2; simp at h2
    | cons g1 t =>
      cases t with
      | nil => rw [hm] at h2; simp at h2
      | cons g2 t2 => rfl

/-- Witness for C4 at concrete directories: an unknown name fails listing
all known servers, "ACME" matches "Acme" case-insensitively, and "test"
against two servers named "Test" fails ambiguous listing both (name, ID)
pairs. -/
theorem findClan_fallback_name_search_witness :
    findClan oneClanSt clanFetchThrew (some "Zulu") =
      .error (.clanNotFoundListing "Zulu" ["Acme"]) ∧
    findClan oneClanSt clanFetchThrew (some "ACME") = .ok ⟨"s1", "Acme"⟩ ∧
    findClan collideClanSt clanFetchThrew (some "test") =
      .error (.clanAmbiguous "test" [("Test", "s1"), ("Test", "s2")]) :=
  ⟨(findClan_fallback_name_search oneClanSt clanFetchThrew "Zulu" (by decide) rfl).1
      (by decide),
   (findClan_fallback_name_search oneClanSt clanFetchThrew "ACME" (by decide) rfl).2.1
      ⟨"s1", "Acme"⟩ (by decide),
   (findClan_fallback_name_search collideClanSt clanFetchThrew "test" (by decide) rfl).2.2
      (by decide)⟩

/-- C1 (code bug, evaluated at the failing input): the tool schemas accept
a `server` field and `findChannel` has a guild-identifier parameter, but
the handlers (lines 175 and 188) drop the parsed `server` and call
`findChannel(channelIdentifier)` alone. With two servers "Acme" and
"Bravo", `send-message(server="s2", channel="general")` and
`read-messages(server="s2", channel="general", limit=5)` both fail with
the multiple-servers error even though the supplied identifier "s2"
resolves cleanly to "Bravo" — channel resolution is never scoped to the
server the caller named. -/
theorem sendMessage_ignores_supplied_server :
    handleToolCall twoClanSt (stdFetchClan twoClanSt) chanFetchThrew "send-message"
      ⟨some "s2", some "general", some "hi", none⟩ =
      .error (.multiServerNoDefault ["Acme", "Bravo"]) ∧
    handleToolCall twoClanSt (stdFetchClan twoClanSt) chanFetchThrew "read-messages"
      ⟨some "s2", some "general", none, some 5⟩ =
      .error (.multiServerNoDefault ["Acme", "Bravo"]) ∧
    findClan twoClanSt (stdFetchClan twoClanSt) (some "s2") = .ok ⟨"s2", "Bravo"⟩ := by
  refine ⟨?_, ?_, ?_⟩ <;> decide

/-- C5 (amended): when the channel ID fetch resolves to an object that is
not text-capable or belongs to a server other than the resolved one,
`findChannel` fails immediately with the wrong-type error of line 85 — it
does not fall through to the name search, which runs only when the fetch
rejects. -/
theorem findChannel_wrongType_immediate (st : ClientState)
    (fc : String → Fetch Clan) (fch : String → Fetch Channel)
    (chId : String) (gid? : Option String) (guild : Clan) (ch : Channel)
    (hg : findClan st fc gid? = .ok guild)
    (hf : fch chId = .found ch)
    (hbad : ¬(ch.isText = true ∧ ch.guildId = guild.id)) :
    findChannel st fc fch chId gid? = .error (.channelWrongType chId guild.name) := by
  unfold findChannel
  rw [hg, hf]
  have hb : (ch.isText && ch.guildId == guild.id) = false := by
    rw [Bool.eq_false_iff]
    intro hab
    rw [Bool.and_eq_true] at hab
    exact hbad ⟨hab.1, eq_of_beq hab.2⟩
  simp [hb]

/-- The directory used by the C5 counterexample: one server holding a
text channel "general" and a non-text (voice) channel also named
"general". -/
def wrongTypeSt : ClientState :=
  ⟨[⟨"s1", "Acme"⟩],
   [⟨"c1", "general", "s1", "Acme", true, []⟩,
    ⟨"cv", "general", "s1", "Acme", false, []⟩]⟩

/-- A channel fetch that resolves "general" to the non-text channel and
rejects everything else. -/
def wrongTypeFch : String → Fetch Channel := fun s =>
  if s = "general" then .found ⟨"cv", "general", "s1", "Acme", false, []⟩ else .threw

/-- Counterexample to C5 as stated: the channel ID fetch succeeds with a
non-text object, and resolution fails immediately with the wrong-type
error instead of falling through to the name search — although the name
search over the resolved server's channels would have produced exactly the
text channel "general". -/
theorem findChannel_wrongType_cex :
    findChannel wrongTypeSt clanFetchThrew wrongTypeFch "general" none =
      .error (.channelWrongType "general" "Acme") ∧
    channelMatches wrongTypeSt ⟨"s1", "Acme"⟩ "general" =
      [⟨"c1", "general", "s1", "Acme", true, []⟩] ∧
    findChannel wrongTypeSt clanFetchThrew wrongTypeFch "general" none ≠
      .ok ⟨"c1", "general", "s1", "Acme", true, []⟩ := by
  refine ⟨?_, ?_, ?_⟩ <;> decide

/-- Witness for C5's amended theorem at a concrete input: the fetch hit is
a voice channel of the resolved server, and the result is exactly the
wrong-type error. -/
theorem findChannel_wrongType_immediate_witness :
    findChannel wrongTypeSt clanFetchThrew wrongTypeFch "general" none =
      .error (.channelWrongType "general" "Acme") :=
  findChannel_wrongType_immediate wrongTypeSt clanFetchThrew wrongTypeFch "general" none
    ⟨"s1", "Acme"⟩ ⟨"cv", "general", "s1", "Acme", false, []⟩
    (by decide) (by decide) (by decide)

/-- Prefixing a `'#'`-free identifier with `'#'` does not change the name
comparison against a `'#'`-free channel name: the appended `'#'` is the
first one, so the `replace` branch strips exactly it. -/
theorem channelNameMatches_hash {name x : String} (hn : '#' ∉ name.data)
    (hx : '#' ∉ x.data) :
    channelNameMatches name ("#" ++ x) = channelNameMatches name x := by
  unfold channelNameMatches
  have hlx : '#' ∉ (lowerStr x).data := hash_not_mem_lowerStr hx
  have hh : lowerStr "#" = "#" := by decide
  have h1 : lowerStr ("#" ++ x) = "#" ++ lowerStr x := by
    rw [lowerStr_append, hh]
  have h2 : replaceFirstHash (lowerStr ("#" ++ x)) = lowerStr x := by
    rw [h1]
    apply String.ext
    show stripFirst '#' ("#" ++ lowerStr x).data = (lowerStr x).data
    rw [data_append]
    show stripFirst '#' ('#' :: (lowerStr x).data) = (lowerStr x).data
    simp [stripFirst]
  have h3 : (lowerStr name == lowerStr ("#" ++ x)) = false := by
    rw [h1]
    apply beq_eq_false_iff_ne.mpr
    intro he
    apply hash_not_mem_lowerStr hn
    rw [he, data_append]
    exact List.mem_append.mpr (Or.inl (by decide))
  rw [h2, h3, replaceFirstHash_of_not_mem hlx, Bool.false_or, Bool.or_self]

/-- C6 (amended): within a resolved server none of whose text channels
has a `'#'` in its name, and for a `'#'`-free query whose two forms both
miss on the ID fetch, `findChannel("#x")` and `findChannel("x")` resolve
to the same channel (the stripped `'#'` being the first in the
identifier, leading-strip and anywhere-strip coincide here). -/
theorem findChannel_hash_prefix_equiv (st : ClientState) (fc : String → Fetch Clan)
    (fch : String → Fetch Channel) (x : String) (gid? : Option String)
    (hx : '#' ∉ x.data)
    (hnames : ∀ c ∈ st.channels, c.isText = true → '#' ∉ c.name.data)
    (h1 : fch ("#" ++ x) = .threw) (h2 : fch x = .threw) (c : Channel) :
    (findChannel st fc fch ("#" ++ x) gid? = .ok c ↔
      findChannel st fc fch x gid? = .ok c) := by
  unfold findChannel
  cases hg : findClan st fc gid? with
  | error e => simp
  | ok guild =>
    have hm : channelMatches st guild ("#" ++ x) = channelMatches st guild x := by
      unfold channelMatches
      apply List.filter_congr
      intro ch hch
      have hmem : ch ∈ st.channels := (List.mem_filter.mp hch).1
      cases hct : ch.isText with
      | false => simp [hct]
      | true =>
        have hn := hnames ch hmem hct
        rw [channelNameMatches_hash hn hx]
    cases hms : channelMatches st guild x with
    | nil => simp [h1, h2, hm, hms]
    | cons a t =>
      cases t with
      | nil => simp [h1, h2, hm, hms]
      | cons b t2 => simp [h1, h2, hm, hms]

/-- The directory used by the C6 counterexample: one server holding two
text channels, one literally named "#general" and one named "general". -/
def hashNameSt : ClientState :=
  ⟨[⟨"s1", "Acme"⟩],
   [⟨"c1", "#general", "s1", "Acme", true, []⟩,
    ⟨"c2", "general", "s1", "Acme", true, []⟩]⟩

/-- Counterexample to C6 as stated: with a channel literally named
"#general" next to one named "general", the query "#general" matches both
(itself directly and "general" after stripping) and fails ambiguous,
while "general" resolves to the channel of that name — the two forms are
not equivalent for every channel name. -/
theorem findChannel_hash_equiv_cex :
    findChannel hashNameSt clanFetchThrew chanFetchThrew "#general" none =
      .error (.channelAmbiguous "#general" "Acme"
        [("#general", "c1"), ("general", "c2")]) ∧
    findChannel hashNameSt clanFetchThrew chanFetchThrew "general" none =
      .ok ⟨"c2", "general", "s1", "Acme", true, []⟩ := by
  refine ⟨?_, ?_⟩ <;> decide

/-- Witness for C6's amended theorem: in a `'#'`-free directory the
"#general" and "general" queries resolve identically. -/
theorem findChannel_hash_prefix_equiv_witness :
    (findChannel oneClanSt clanFetchThrew chanFetchThrew ("#" ++ "general") none =
      .ok ⟨"c1", "general", "s1", "Acme", true, []⟩) ↔
    (findChannel oneClanSt clanFetchThrew chanFetchThrew "general" none =
      .ok ⟨"c1", "general", "s1", "Acme", true, []⟩) :=
  findChannel_hash_prefix_equiv oneClanSt clanFetchThrew chanFetchThrew "general" none
    (by decide) (by decide) rfl rfl ⟨"c1", "general", "s1", "Acme", true, []⟩

/-- C10: the `'#'`-stripped comparison removes the first `'#'` occurring
anywhere in the identifier, not only a leading one: an identifier equal
to a (`'#'`-free) channel name with a single `'#'` inserted at any
position matches that channel case-insensitively — both in the raw
comparison and as membership in the name-search candidate list. -/
theorem channelMatch_hash_anywhere (N A B : String)
    (hN : lowerStr N = lowerStr (A ++ B)) (hA : '#' ∉ A.data) (_hB : '#' ∉ B.data) :
    channelNameMatches N (A ++ "#" ++ B) = true ∧
    (∀ (st : ClientState) (g : Clan) (c : Channel), c ∈ guildCache st g →
      c.isText = true → lowerStr c.name = lowerStr (A ++ B) →
      c ∈ channelMatches st g (A ++ "#" ++ B)) := by
  have hh : lowerStr "#" = "#" := by decide
  have hstrip : replaceFirstHash (lowerStr (A ++ "#" ++ B)) = lowerStr (A ++ B) := by
    apply String.ext
    show stripFirst '#' (lowerStr (A ++ "#" ++ B)).data = (lowerStr (A ++ B)).data
    rw [lowerStr_append, lowerStr_append, hh, lowerStr_append]
    rw [data_append, data_append, data_append]
    have hsh : ("#" : String).data = ['#'] := rfl
    rw [hsh, List.append_assoc]
    show stripFirst '#' ((lowerStr A).data ++ '#' :: (lowerStr B).data) =
      (lowerStr A).data ++ (lowerStr B).data
    exact stripFirst_append_of_not_mem (hash_not_mem_lowerStr hA)
  have hmain : ∀ name : String, lowerStr name = lowerStr (A ++ B) →
      channelNameMatches name (A ++ "#" ++ B) = true := by
    intro name hname
    unfold channelNameMatches
    rw [hstrip, hname]
    simp
  refine ⟨hmain N hN, ?_⟩
  intro st g c hmem hct hname
  apply List.mem_filter.mpr
  refine ⟨hmem, ?_⟩
  rw [hct, hmain c.name hname]
  rfl

/-- Witness for C10: "gen#eral" matches the differently-cased name
"General", and the channel named "general" of the one-server directory is
in the candidate list for the query "gen#eral". -/
theorem channelMatch_hash_anywhere_witness :
    channelNameMatches "General" ("gen" ++ "#" ++ "eral") = true ∧
    ⟨"c1", "general", "s1", "Acme", true, []⟩ ∈
      channelMatches oneClanSt ⟨"s1", "Acme"⟩ ("gen" ++ "#" ++ "eral") :=
  ⟨(channelMatch_hash_anywhere "General" "gen" "eral" (by decide) (by decide)
      (by decide)).1,
   (channelMatch_hash_anywhere "General" "gen" "eral" (by decide) (by decide)
      (by decide)).2
      oneClanSt ⟨"s1", "Acme"⟩ ⟨"c1", "general", "s1", "Acme", true, []⟩
      (by decide) rfl (by decide)⟩

/-- A successfully parsed read-messages limit lies in the inclusive
interval from 1 to 100 (the default 50 included). -/
theorem parseReadArgs_ok_bounds {a : RawArgs} {s : Option String} {chv : String}
    {l : Rat} (h : parseReadArgs a = .ok (s, chv, l)) : 1 ≤ l ∧ l ≤ 100 := by
  unfold parseReadArgs at h
  split at h
  · cases h
  · split at h
    · simp only [Except.ok.injEq, Prod.mk.injEq] at h
      obtain ⟨-, -, h3⟩ := h
      rw [← h3]
      exact ⟨by decide, by decide⟩
    · next lv hl =>
      split at h
      · next hcond =>
        simp only [Except.ok.injEq, Prod.mk.injEq] at h
        obtain ⟨-, -, h3⟩ := h
        rw [← h3]
        exact hcond
      · cases h

/-- C7 (amended): the read-messages limit is validated as a number in the
inclusive interval 1 to 100, with default 50 when absent (integrality is
not checked): limit 150 and limit 0 each fail validation, and the failing
invocation's result is independent of the directory and of both fetch
functions — no resolution or network call is involved. -/
theorem readLimit_validation (st st' : ClientState) (fc fc' : String → Fetch Clan)
    (fch fch' : String → Fetch Channel) (a : RawArgs) (chv : String)
    (hch : a.channel = some chv) :
    ((a.limit = some 150 ∨ a.limit = some 0) →
      parseReadArgs a = .error (.invalidArguments ["limit"]) ∧
      handleReadMessages st fc fch a = .error (.invalidArguments ["limit"]) ∧
      handleReadMessages st fc fch a = handleReadMessages st' fc' fch' a) ∧
    (a.limit = none → parseReadArgs a = .ok (a.server, chv, 50)) := by
  have key : ∀ l : Rat, a.limit = some l → ¬(1 ≤ l ∧ l ≤ 100) →
      parseReadArgs a = .error (.invalidArguments ["limit"]) := by
    intro l hl hnot
    unfold parseReadArgs
    rw [hch, hl]
    show (if 1 ≤ l ∧ l ≤ 100
        then (Except.ok (a.server, chv, l) : Except ResErr (Option String × String × Rat))
        else .error (.invalidArguments ["limit"])) = .error (.invalidArguments ["limit"])
    rw [if_neg hnot]
  constructor
  · intro hl
    have hp : parseReadArgs a = .error (.invalidArguments ["limit"]) := by
      rcases hl with hl | hl
      · exact key 150 hl (by decide)
      · exact key 0 hl (by decide)
    have hh1 : handleReadMessages st fc fch a = .error (.invalidArguments ["limit"]) := by
      unfold handleReadMessages
      rw [hp]
    have hh2 : handleReadMessages st' fc' fch' a = .error (.invalidArguments ["limit"]) := by
      unfold handleReadMessages
      rw [hp]
    exact ⟨hp, hh1, hh1.trans hh2.symm⟩
  · intro h0
    unfold parseReadArgs
    rw [hch, h0]

/-- The non-integral limit used by the C7 counterexample: 5/2, given in
lowest terms. -/
def halfLimit : Rat := ⟨5, 2, by norm_num, by norm_num⟩

/-- Counterexample to C7 as stated: the limit is not validated as an
integer — the non-integral value 5/2 passes `z.number().min(1).max(100)`
and is returned by the parse unchanged. -/
theorem readLimit_noninteger_cex :
    parseReadArgs ⟨none, some "general", none, some halfLimit⟩ =
      .ok (none, "general", halfLimit) ∧ halfLimit.den ≠ 1 := by
  refine ⟨?_, ?_⟩ <;> decide

/-- Witness for C7's amended theorem at concrete inputs: limit 150 and
limit 0 fail validation with results independent of two entirely
different directories and fetch functions, and an absent limit parses to
50. -/
theorem readLimit_validation_witness :
    parseReadArgs ⟨none, some "general", none, some 150⟩ =
      .error (.invalidArguments ["limit"]) ∧
    handleReadMessages oneClanSt clanFetchThrew chanFetchThrew
        ⟨none, some "general", none, some 150⟩ =
      handleReadMessages twoClanSt (stdFetchClan twoClanSt) wrongTypeFch
        ⟨none, some "general", none, some 150⟩ ∧
    parseReadArgs ⟨none, some "general", none, some 0⟩ =
      .error (.invalidArguments ["limit"]) ∧
    parseReadArgs ⟨none, some "general", none, none⟩ = .ok (none, "general", 50) :=
  ⟨((readLimit_validation oneClanSt twoClanSt clanFetchThrew (stdFetchClan twoClanSt)
      chanFetchThrew wrongTypeFch ⟨none, some "general", none, some 150⟩ "general" rfl).1
      (Or.inl rfl)).1,
   ((readLimit_validation oneClanSt twoClanSt clanFetchThrew (stdFetchClan twoClanSt)
      chanFetchThrew wrongTypeFch ⟨none, some "general", none, some 150⟩ "general" rfl).1
      (Or.inl rfl)).2.2,
   ((readLimit_validation oneClanSt twoClanSt clanFetchThrew (stdFetchClan twoClanSt)
      chanFetchThrew wrongTypeFch ⟨none, some "general", none, some 0⟩ "general" rfl).1
      (Or.inr rfl)).1,
   (readLimit_validation oneClanSt twoClanSt clanFetchThrew (stdFetchClan twoClanSt)
      chanFetchThrew wrongTypeFch ⟨none, some "general", none, none⟩ "general" rfl).2 rfl⟩

/-- C8: a successful read-messages invocation returns exactly the fetched
message list mapped through the five-field projection, in the directory's
delivery order with no re-sorting; the result holds at most `limit`
entries; every entry's channel field is the resolved channel's name
prefixed with `'#'` and its server field is that channel's server's name;
and the resolved channel belongs to the server `findClan` resolved. -/
theorem readMessages_projection (st : ClientState) (fc : String → Fetch Clan)
    (fch : String → Fetch Channel) (a : RawArgs) (s : Option String)
    (chid : String) (l : Rat) (ch : Channel)
    (hp : parseReadArgs a = .ok (s, chid, l))
    (hr : findChannel st fc fch chid none = .ok ch) :
    handleReadMessages st fc fch a =
      .ok (.readResult ((fetchMessages ch l).map (projectMsg ch))) ∧
    ((fetchMessages ch l).length : ℚ) ≤ l ∧
    (∀ v ∈ (fetchMessages ch l).map (projectMsg ch),
      v.channel = "#" ++ ch.name ∧ v.server = ch.guildName) ∧
    ∃ g, findClan st fc none = .ok g ∧ ch.guildId = g.id := by
  have hbounds := parseReadArgs_ok_bounds hp
  refine ⟨?_, ?_, ?_, findChannel_scoped hr⟩
  · unfold handleReadMessages
    rw [hp]
    show (match findChannel st fc fch chid none with
      | Except.error e => (Except.error e : Except ResErr ToolResult)
      | Except.ok c2 =>
        Except.ok (ToolResult.readResult ((fetchMessages c2 l).map (projectMsg c2)))) =
      Except.ok (ToolResult.readResult ((fetchMessages ch l).map (projectMsg ch)))
    rw [hr]
  · have h0 : (0 : ℚ) ≤ l := le_trans (by norm_num) hbounds.1
    have hfl : (⌊l⌋ : ℚ) ≤ l := Int.floor_le l
    have hnn : 0 ≤ ⌊l⌋ := Int.floor_nonneg.mpr h0
    have hlen : (fetchMessages ch l).length ≤ (⌊l⌋).toNat := by
      unfold fetchMessages
      rw [List.length_take]
      exact min_le_left _ _
    calc ((fetchMessages ch l).length : ℚ) ≤ ((⌊l⌋).toNat : ℚ) := by exact_mod_cast hlen
      _ = (⌊l⌋ : ℚ) := by exact_mod_cast Int.toNat_of_nonneg hnn
      _ ≤ l := hfl
  · intro v hv
    obtain ⟨m, hm, hvm⟩ := List.mem_map.mp hv
    rw [← hvm]
    exact ⟨rfl, rfl⟩

/-- Two messages in delivery order, and a one-server directory whose
"random" channel stores them. -/
def msgA : Msg := ⟨"alice", "hello", "2024-01-01T00:00:00.000Z"⟩

def msgB : Msg := ⟨"bob", "hi there", "2024-01-01T00:01:00.000Z"⟩

def randomCh : Channel := ⟨"c2", "random", "s1", "Acme", true, [msgA, msgB]⟩

def msgSt : ClientState := ⟨[⟨"s1", "Acme"⟩], [randomCh]⟩

/-- Witness for C8: reading "random" with limit 5 succeeds, delivers both
stored messages projected in order, stays within the limit, carries the
"#random"/"Acme" fields, and is scoped to the resolved server. -/
theorem readMessages_projection_witness :
    handleReadMessages msgSt clanFetchThrew chanFetchThrew
        ⟨none, some "random", none, some 5⟩ =
      .ok (.readResult ((fetchMessages randomCh 5).map (projectMsg randomCh))) ∧
    ((fetchMessages randomCh 5).length : ℚ) ≤ 5 ∧
    (∀ v ∈ (fetchMessages randomCh 5).map (projectMsg randomCh),
      v.channel = "#" ++ randomCh.name ∧ v.server = randomCh.guildName) ∧
    ∃ g, findClan msgSt clanFetchThrew none = .ok g ∧ randomCh.guildId = g.id :=
  readMessages_projection msgSt clanFetchThrew chanFetchThrew
    ⟨none, some "random", none, some 5⟩ none "random" 5 randomCh (by decide) (by decide)

/-- C9: every resolution or validation failure is returned as the in-band
error value of that one invocation — after a successful startup the
process stays running and every queued call receives its own
`handleToolCall` response — while each startup failure (missing
credential, failed login, failed transport connect) terminates the
process with exit status 1 after the error is logged, serving nothing. -/
theorem startup_fatal_invocation_nonfatal (st : ClientState)
    (fc : String → Fetch Clan) (fch : String → Fetch Channel)
    (token : Option String) (loginOk connectOk : Bool)
    (calls : List (String × RawArgs)) :
    ((token = none ∨ loginOk = false ∨ connectOk = false) →
      systemRun st fc fch token loginOk connectOk calls = (.fatal 1 true, [])) ∧
    (token ≠ none → loginOk = true → connectOk = true →
      systemRun st fc fch token loginOk connectOk calls =
        (.running true, calls.map (fun p => handleToolCall st fc fch p.1 p.2))) := by
  constructor
  · intro h
    rcases h with h | h | h
    · subst h
      rfl
    · subst h
      cases token with
      | none => rfl
      | some t => rfl
    · subst h
      cases token with
      | none => rfl
      | some t =>
        cases loginOk with
        | false => rfl
        | true => rfl
  · intro h1 h2 h3
    cases token with
    | none => exact absurd rfl h1
    | some t =>
      subst h2
      subst h3
      rfl

/-- Witness for C9: the three startup failures each end in a logged fatal
exit with status 1, while after a successful startup a tool call whose
channel cannot be resolved gets an in-band not-found error and the
process keeps running. -/
theorem startup_fatal_invocation_nonfatal_witness :
    systemRun oneClanSt clanFetchThrew chanFetchThrew none true true [] =
      (.fatal 1 true, []) ∧
    systemRun oneClanSt clanFetchThrew chanFetchThrew (some "tok") false true [] =
      (.fatal 1 true, []) ∧
    systemRun oneClanSt clanFetchThrew chanFetchThrew (some "tok") true false [] =
      (.fatal 1 true, []) ∧
    systemRun oneClanSt clanFetchThrew chanFetchThrew (some "tok") true true
        [("send-message", ⟨none, some "nope", some "hi", none⟩)] =
      (.running true, [.error (.channelNotFound "nope" "Acme" ["general"])]) :=
  ⟨(startup_fatal_invocation_nonfatal oneClanSt clanFetchThrew chanFetchThrew
      none true true []).1 (Or.inl rfl),
   (startup_fatal_invocation_nonfatal oneClanSt clanFetchThrew chanFetchThrew
      (some "tok") false true []).1 (Or.inr (Or.inl rfl)),
   (startup_fatal_invocation_nonfatal oneClanSt clanFetchThrew chanFetchThrew
      (some "tok") true false []).1 (Or.inr (Or.inr rfl)),
   (startup_fatal_invocation_nonfatal oneClanSt clanFetchThrew chanFetchThrew
      (some "tok") true true
      [("send-message", ⟨none, some "nope", some "hi", none⟩)]).2
      (by decide) rfl rfl⟩

end Mezon
